import Mathlib

/-!
Verification of the ACME client (`project/acme_client.py`) against its
natural-language specification.  The Python code is shallowly embedded:
byte strings become `List Nat` (each element `< 256`), JSON values become
an inductive `Json` with Python's `json.dumps` serializer modelled
faithfully (including its default separators `", "` / `": "` and
`ensure_ascii` escaping), `base64.urlsafe_b64encode(...).rstrip("=")`
becomes `encode_b64`, and SHA-256 is implemented in full (FIPS 180-4)
over `Nat` arithmetic mod `2^32`.  ECDSA signing (`DSS` in mode
`fips-186-3`) is randomized, so the signing primitive is a function
parameter of the envelope builders.
-/

namespace Acme

/-! ## Bytes and base64url (`encode_b64`, acme_client.py lines 83-86) -/

/-- The base64url alphabet used by `base64.urlsafe_b64encode`. -/
def b64Alphabet : List Char :=
  "ABCDEFGHIJKLMNOPQRSTUVWXYZabcdefghijklmnopqrstuvwxyz0123456789-_".data

/-- Character for a 6-bit group. -/
def b64Char (n : Nat) : Char := b64Alphabet.getD n '?'

/-- Position of a character in a list (first match), used to invert the
base64url alphabet. -/
def posIn : List Char → Char → Nat
  | [], _ => 0
  | a :: rest, c => if a = c then 0 else posIn rest c + 1

/-- Numeric value of a base64url character (inverse of `b64Char`). -/
def b64Val (c : Char) : Nat := posIn b64Alphabet c

/-- Byte list to 6-bit groups, following base64: 3 bytes give 4 sextets; a
final group of 2 bytes gives 3 sextets, of 1 byte gives 2 sextets (the
positions `urlsafe_b64encode` would fill with `=` padding are dropped,
matching the `rstrip("=")` in the source). -/
def sextets : List Nat → List Nat
  | a :: b :: c :: rest =>
      a / 4 :: (a % 4 * 16 + b / 16) :: (b % 16 * 4 + c / 64) :: c % 64 :: sextets rest
  | [a, b] => [a / 4, a % 4 * 16 + b / 16, b % 16 * 4]
  | [a] => [a / 4, a % 4 * 16]
  | [] => []

/-- Inverse of `sextets`: reassemble bytes from 6-bit groups. -/
def unsextets : List Nat → List Nat
  | s1 :: s2 :: s3 :: s4 :: rest =>
      (s1 * 4 + s2 / 16) :: (s2 % 16 * 16 + s3 / 4) :: (s3 % 4 * 64 + s4) :: unsextets rest
  | [s1, s2, s3] => [s1 * 4 + s2 / 16, s2 % 16 * 16 + s3 / 4]
  | [s1, s2] => [s1 * 4 + s2 / 16]
  | _ => []

/-- Embedding of `encode_b64` on bytes:
`base64.urlsafe_b64encode(data).decode("utf-8").rstrip("=")`. -/
def encode_b64 (data : List Nat) : String := String.mk ((sextets data).map b64Char)

/-- UTF-8 encoding of one character (RFC 3629), used to model Python
`str.encode("utf-8")`; on ASCII input it agrees with `str.encode("ascii")`. -/
def utf8EncodeChar (c : Char) : List Nat :=
  if c.toNat < 128 then [c.toNat]
  else if c.toNat < 2048 then [192 + c.toNat / 64, 128 + c.toNat % 64]
  else if c.toNat < 65536 then
    [224 + c.toNat / 4096, 128 + c.toNat / 64 % 64, 128 + c.toNat % 64]
  else
    [240 + c.toNat / 262144, 128 + c.toNat / 4096 % 64,
      128 + c.toNat / 64 % 64, 128 + c.toNat % 64]

/-- UTF-8 bytes of a string (`str.encode("utf-8")`). -/
def utf8Bytes (s : String) : List Nat := s.data.flatMap utf8EncodeChar

/-- Embedding of `encode_b64` on a `str` argument: the source first UTF-8
encodes it (`data.encode("utf-8")`), then base64url-encodes. -/
def encode_b64_str (s : String) : String := encode_b64 (utf8Bytes s)

/-- Restore the `=` padding that `encode_b64` stripped. -/
def restorePad (s : String) : String :=
  s ++ String.mk (List.replicate ((4 - s.length % 4) % 4) '=')

/-- Standard base64url decoding of a padded string (the spec-side inverse
used to state round-trip claims): padding characters are discarded, the
rest are mapped to their 6-bit values and reassembled. -/
def b64urlDecode (s : String) : List Nat :=
  unsextets ((s.data.filter (fun c => c ≠ '=')).map b64Val)

/-! ## Basic lemmas about base64url -/

/-! ## JSON values and Python's `json.dumps` -/

/-- Python values that flow into `json.dumps` in the client: `None`, `bool`,
`int`, `str`, `list`, `dict` (dicts keep insertion order, and `json.dumps`
serializes members in that order since `sort_keys` defaults to `False`). -/
inductive Json where
  | null : Json
  | bool (b : Bool) : Json
  | num (n : Nat) : Json
  | str (s : String) : Json
  | arr (elems : List Json) : Json
  | obj (members : List (String × Json)) : Json

/-- Hexadecimal digit character, lower case, as emitted by Python's
`ensure_ascii` escaping. -/
def hexDigit (n : Nat) : Char := "0123456789abcdef".data.getD n '0'

/-- Four-digit hexadecimal rendering used in `\uXXXX` escapes. -/
def toHex4 (n : Nat) : List Char :=
  [hexDigit (n / 4096 % 16), hexDigit (n / 256 % 16), hexDigit (n / 16 % 16),
    hexDigit (n % 16)]

/-- Python `json.dumps` string escaping with the default `ensure_ascii=True`:
backslash, double quote and the five short escapes specially; every other
character outside printable ASCII (0x20-0x7e) as `\uXXXX`, using a surrogate
pair above the BMP; printable ASCII verbatim. -/
def jsonEscapeChar (c : Char) : List Char :=
  if c = '\\' then ['\\', '\\']
  else if c = '"' then ['\\', '"']
  else if c = '\x08' then ['\\', 'b']
  else if c = '\x0c' then ['\\', 'f']
  else if c = '\n' then ['\\', 'n']
  else if c = '\r' then ['\\', 'r']
  else if c = '\t' then ['\\', 't']
  else if c.toNat < 32 ∨ 126 < c.toNat then
    if c.toNat < 65536 then '\\' :: 'u' :: toHex4 c.toNat
    else
      '\\' :: 'u' :: toHex4 (55296 + (c.toNat - 65536) / 1024) ++
        ('\\' :: 'u' :: toHex4 (56320 + (c.toNat - 65536) % 1024))
  else [c]

/-- A JSON string literal as `json.dumps` renders it. -/
def jsonQuote (s : String) : String :=
  "\"" ++ String.mk (s.data.flatMap jsonEscapeChar) ++ "\""

mutual

/-- Embedding of Python `json.dumps(v, separators=(isep, ksep))`; with
`isep = ", "` and `ksep = ": "` this is the default rendering used by the
envelope builders, with `isep = ","` and `ksep = ":"` the compact rendering
used by `create_key_authorization`. -/
def dumpsVal (isep ksep : String) : Json → String
  | .null => "null"
  | .bool true => "true"
  | .bool false => "false"
  | .num n => toString n
  | .str s => jsonQuote s
  | .arr es => "[" ++ dumpsElems isep ksep es ++ "]"
  | .obj ms => "\x7b" ++ dumpsMembers isep ksep ms ++ "\x7d"

/-- Array elements joined by the item separator. -/
def dumpsElems (isep ksep : String) : List Json → String
  | [] => ""
  | [e] => dumpsVal isep ksep e
  | e :: e2 :: es => dumpsVal isep ksep e ++ isep ++ dumpsElems isep ksep (e2 :: es)

/-- Object members `key ksep value` joined by the item separator. -/
def dumpsMembers (isep ksep : String) : List (String × Json) → String
  | [] => ""
  | [(k, v)] => jsonQuote k ++ ksep ++ dumpsVal isep ksep v
  | (k, v) :: m2 :: ms =>
      jsonQuote k ++ ksep ++ dumpsVal isep ksep v ++ isep ++
        dumpsMembers isep ksep (m2 :: ms)

end

/-- Python `json.dumps(v)` with default separators (`indent=None` makes them
`(", ", ": ")` — note the spaces). -/
def dumps (v : Json) : String := dumpsVal ", " ": " v

/-- Python `json.dumps(v, separators=(",", ":"))`, the whitespace-free form
used only by `create_key_authorization`. -/
def dumpsCompact (v : Json) : String := dumpsVal "," ":" v

/-- Top-level keys of a JSON object, in order (empty for non-objects). -/
def topKeys : Json → List String
  | .obj ms => ms.map Prod.fst
  | _ => []

/-- Whether a JSON object has a top-level member named `k`. -/
def hasKey (j : Json) (k : String) : Bool := (topKeys j).contains k

/-- First top-level member named `k`, if any. -/
def getMember (j : Json) (k : String) : Option Json :=
  match j with
  | .obj ms => (ms.find? (fun m => m.fst == k)).map Prod.snd
  | _ => none

/-! ## SHA-256 (FIPS 180-4), modelling `Crypto.Hash.SHA256`

Arithmetic is `Nat` reduced mod `2^32`; inputs and the 32-byte digest are
`List Nat` byte lists. -/

/-- Reduce a word to 32 bits. -/
def w32 (n : Nat) : Nat := n % 4294967296

/-- Right rotation of a 32-bit word (for `x < 2^32`). -/
def rotr32 (x n : Nat) : Nat := x / 2 ^ n + x % 2 ^ n * 2 ^ (32 - n)

/-- Bitwise complement of a 32-bit word. -/
def not32 (x : Nat) : Nat := x ^^^ 4294967295

/-- SHA-256 choice function. -/
def shaCh (x y z : Nat) : Nat := (x &&& y) ^^^ (not32 x &&& z)

/-- SHA-256 majority function. -/
def shaMaj (x y z : Nat) : Nat := (x &&& y) ^^^ (x &&& z) ^^^ (y &&& z)

/-- Big sigma 0. -/
def bsig0 (x : Nat) : Nat := rotr32 x 2 ^^^ rotr32 x 13 ^^^ rotr32 x 22

/-- Big sigma 1. -/
def bsig1 (x : Nat) : Nat := rotr32 x 6 ^^^ rotr32 x 11 ^^^ rotr32 x 25

/-- Small sigma 0. -/
def ssig0 (x : Nat) : Nat := rotr32 x 7 ^^^ rotr32 x 18 ^^^ x / 8

/-- Small sigma 1. -/
def ssig1 (x : Nat) : Nat := rotr32 x 17 ^^^ rotr32 x 19 ^^^ x / 1024

/-- The 64 SHA-256 round constants, in decimal. -/
def shaK : List Nat :=
  [1116352408, 1899447441, 3049323471, 3921009573, 961987163,
   1508970993, 2453635748, 2870763221, 3624381080, 310598401,
   607225278, 1426881987, 1925078388, 2162078206, 2614888103,
   3248222580, 3835390401, 4022224774, 264347078, 604807628,
   770255983, 1249150122, 1555081692, 1996064986, 2554220882,
   2821834349, 2952996808, 3210313671, 3336571891, 3584528711,
   113926993, 338241895, 666307205, 773529912, 1294757372,
   1396182291, 1695183700, 1986661051, 2177026350, 2456956037,
   2730485921, 2820302411, 3259730800, 3345764771, 3516065817,
   3600352804, 4094571909, 275423344, 430227734, 506948616,
   659060556, 883997877, 958139571, 1322822218, 1537002063,
   1747873779, 1955562222, 2024104815, 2227730452, 2361852424,
   2428436474, 2756734187, 3204031479, 3329325298]

/-- The eight initial hash values. -/
def shaIV : List Nat :=
  [1779033703, 3144134277, 1013904242, 2773480762,
   1359893119, 2600822924, 528734635, 1541459225]

/-- Extend the 16 message words to 64 (message schedule). -/
def shaExtend (w : List Nat) : Nat → List Nat
  | 0 => w
  | k + 1 =>
      let i := w.length
      shaExtend
        (w ++ [w32 (ssig1 (w.getD (i - 2) 0) + w.getD (i - 7) 0 +
          ssig0 (w.getD (i - 15) 0) + w.getD (i - 16) 0)]) k

/-- One SHA-256 compression round; the state is the eight working words. -/
def shaRound (st : List Nat) (kw : Nat × Nat) : List Nat :=
  match st with
  | [a, b, c, d, e, f, g, h] =>
      let t1 := w32 (h + bsig1 e + shaCh e f g + kw.1 + kw.2)
      let t2 := w32 (bsig0 a + shaMaj a b c)
      [w32 (t1 + t2), a, b, c, w32 (d + t1), e, f, g]
  | other => other

/-- Big-endian word from four bytes, grouping a 64-byte block into 16 words. -/
def bytesToWords : List Nat → List Nat
  | a :: b :: c :: d :: rest => (a * 16777216 + b * 65536 + c * 256 + d) :: bytesToWords rest
  | _ => []

/-- Big-endian four-byte rendering of a 32-bit word. -/
def wordBytes (w : Nat) : List Nat :=
  [w / 16777216 % 256, w / 65536 % 256, w / 256 % 256, w % 256]

/-- Process one 64-byte block. -/
def shaCompress (st : List Nat) (block : List Nat) : List Nat :=
  let ws := shaExtend (bytesToWords block) 48
  let out := (shaK.zip ws).foldl shaRound st
  (st.zip out).map (fun p => w32 (p.1 + p.2))

/-- Split a byte list into 64-byte blocks; the first argument is descent
fuel (the list length bounds the number of blocks), keeping the recursion
structural. -/
def blocks64Go : Nat → List Nat → List (List Nat)
  | 0, _ => []
  | fuel + 1, l => if l.length = 0 then [] else l.take 64 :: blocks64Go fuel (l.drop 64)

/-- Split a byte list into 64-byte blocks. -/
def blocks64 (l : List Nat) : List (List Nat) := blocks64Go l.length l

/-- Big-endian eight-byte rendering of the 64-bit message bit length. -/
def lenBytes64 (n : Nat) : List Nat :=
  [n / 72057594037927936 % 256, n / 281474976710656 % 256,
   n / 1099511627776 % 256, n / 4294967296 % 256,
   n / 16777216 % 256, n / 65536 % 256, n / 256 % 256, n % 256]

/-- SHA-256 padding: `0x80`, zeros to 56 mod 64, then the bit length. -/
def shaPad (msg : List Nat) : List Nat :=
  msg ++ 128 :: List.replicate ((64 + 55 - msg.length % 64) % 64) 0 ++
    lenBytes64 (8 * msg.length)

/-- SHA-256 digest (32 bytes) of a byte list. -/
def sha256 (msg : List Nat) : List Nat :=
  ((blocks64 (shaPad msg)).foldl shaCompress shaIV).flatMap wordBytes

/-! ## The ACME client (`acme_client.py`)

HTTP traffic is modelled by passing each function the response(s) the
server produced for its request(s); the functions' return values and the
provisioning calls they make are the observables. ECDSA signing
(`self.signing_alg.sign`, randomized) is a function parameter `sign`. -/

/-- The client's P-256 account public key: the affine coordinates
`self.key.pointQ.x` / `.y` as natural numbers. -/
structure ECKey where
  x : Nat
  y : Nat

/-- Minimal big-endian byte rendering, auxiliary to `natToBytesBE`; the
first argument is descent fuel (the value itself bounds the number of
base-256 digits), keeping the recursion structural. -/
def natBytesGo : Nat → Nat → List Nat
  | 0, _ => []
  | fuel + 1, n => if n = 0 then [] else natBytesGo fuel (n / 256) ++ [n % 256]

/-- Minimal big-endian byte rendering of a natural number. -/
def natBytesAux (n : Nat) : List Nat := natBytesGo n n

/-- pycryptodome `Integer.to_bytes()` with default `block_size=0`: the
minimal-length big-endian byte string (one zero byte for zero), not padded
to the 32-byte curve width. -/
def natToBytesBE (n : Nat) : List Nat := if n = 0 then [0] else natBytesAux n

/-- Embedding of `create_jwk_object` (lines 106-115): the dict literal in
source order `crv, kid, kty, x, y` — note it carries a fifth member
`"kid": "1"` alongside the four JWK members. -/
def create_jwk_object (key : ECKey) : Json :=
  Json.obj [("crv", .str "P-256"), ("kid", .str "1"), ("kty", .str "EC"),
    ("x", .str (encode_b64 (natToBytesBE key.x))),
    ("y", .str (encode_b64 (natToBytesBE key.y)))]

/-- An HTTP response to the nonce request: status code and the
`Replay-Nonce` header. -/
structure NonceResp where
  code : Nat
  replayNonce : String

/-- Embedding of `get_nonce` (lines 117-127): fails when the directory has
not been resolved (`newNonce_url == None`); accepts status 200 or 204 and
returns the `Replay-Nonce` header; any other status falls through to
`None`. -/
def get_nonce (newNonce_url : Option String) (resp : NonceResp) : Option String :=
  match newNonce_url with
  | none => none
  | some _ =>
      if resp.code = 200 ∨ resp.code = 204 then some resp.replayNonce else none

/-- The four-member key dict built inside `create_key_authorization`
(lines 130-135), in source order `crv, kty, x, y` (no `kid` here). -/
def keyauth_jwk (key : ECKey) : Json :=
  Json.obj [("crv", .str "P-256"), ("kty", .str "EC"),
    ("x", .str (encode_b64 (natToBytesBE key.x))),
    ("y", .str (encode_b64 (natToBytesBE key.y)))]

/-- Embedding of `create_key_authorization` (lines 129-141): the key dict is
serialized with `separators=(",", ":")`, UTF-8 encoded, SHA-256 hashed,
base64url encoded, and appended to the token after a dot. -/
def create_key_authorization (key : ECKey) (token : String) : String :=
  token ++ "." ++ encode_b64 (sha256 (utf8Bytes (dumpsCompact (keyauth_jwk key))))

/-- Json rendering of an `Option String` (Python `None` becomes `null`). -/
def optStr : Option String → Json
  | none => .null
  | some s => .str s

/-- The protected header dict of `create_jose_jwk` (lines 168-173). -/
def jwk_protected_header (key : ECKey) (nonce : Option String) (url : String) : Json :=
  Json.obj [("alg", .str "ES256"), ("jwk", create_jwk_object key),
    ("nonce", optStr nonce), ("url", .str url)]

/-- The protected header dict of `create_jose_kid` (lines 196-201). -/
def kid_protected_header (kid : Option String) (nonce : Option String) (url : String) : Json :=
  Json.obj [("alg", .str "ES256"), ("kid", optStr kid),
    ("nonce", optStr nonce), ("url", .str url)]

/-- A produced JOSE envelope `{protected, payload, signature}` plus, as an
extra observable, the exact string whose ASCII bytes are SHA-256 hashed and
signed (`signingInput`). -/
structure JoseResult where
  protected_ : String
  payload : String
  signingInput : String
  signature : String

/-- Embedding of `create_jose_jwk` (lines 166-191): serialize header and
payload with default separators, base64url-encode both, hash
`"{header}.{payload}"` and sign the digest. -/
def create_jose_jwk (sign : List Nat → List Nat) (key : ECKey)
    (nonce : Option String) (url : String) (payload : Json) : JoseResult :=
  let encoded_header := encode_b64_str (dumps (jwk_protected_header key nonce url))
  let encoded_payload := encode_b64_str (dumps payload)
  let si := encoded_header ++ "." ++ encoded_payload
  ⟨encoded_header, encoded_payload, si, encode_b64 (sign (sha256 (utf8Bytes si)))⟩

/-- Embedding of `create_jose_kid` (lines 194-222): as `create_jose_jwk`
but with `kid` instead of `jwk` in the header, and a special case for the
empty-string payload (`payload == ""`), which contributes zero bytes: the
hashed string is `"{header}."` and the envelope payload field is `""`. -/
def create_jose_kid (sign : List Nat → List Nat) (kid : Option String)
    (nonce : Option String) (url : String) (payload : Json) : JoseResult :=
  let encoded_header := encode_b64_str (dumps (kid_protected_header kid nonce url))
  match payload with
  | .str "" =>
      let si := encoded_header ++ "."
      ⟨encoded_header, "", si, encode_b64 (sign (sha256 (utf8Bytes si)))⟩
  | p =>
      let encoded_payload := encode_b64_str (dumps p)
      let si := encoded_header ++ "." ++ encoded_payload
      ⟨encoded_header, encoded_payload, si, encode_b64 (sign (sha256 (utf8Bytes si)))⟩

/-- One challenge from an authorization body. -/
structure Challenge where
  type : String
  token : String
deriving DecidableEq

/-- The authorization fetch response consumed by `authorize_certificate`:
HTTP status, the challenge list, and `identifier.value`. -/
structure AuthzResp where
  code : Nat
  challenges : List Challenge
  identifierValue : String

/-- The provisioning call `authorize_certificate` makes: either
`dns_server.zone_add_TXT(name, value)` or
`register_http_challenge(token, keyAuthorization)`. -/
inductive ProvisionAction where
  | dnsTXT (name value : String)
  | httpChallenge (token keyAuth : String)
deriving DecidableEq

/-- Challenge loop of `authorize_certificate` (lines 248-266). -/
def authorize_loop (key : ECKey) (identifierValue : String) (auth_scheme : String) :
    List Challenge → Option (ProvisionAction × Challenge)
  | [] => none
  | ch :: rest =>
      let key_auth := create_key_authorization key ch.token
      if auth_scheme = "dns01" ∧ ch.type = "dns-01" then
        some (.dnsTXT ("_acme-challenge." ++ identifierValue)
          (encode_b64 (sha256 (utf8Bytes key_auth))), ch)
      else if auth_scheme = "http01" ∧ ch.type = "http-01" then
        some (.httpChallenge ch.token key_auth, ch)
      else authorize_loop key identifierValue auth_scheme rest

/-- Embedding of `authorize_certificate` (lines 239-266): requires HTTP 200,
then walks the challenge list; for `dns01` the key authorization is hashed
again (`base64url(SHA-256(keyAuth))`) and published as a TXT record at
`_acme-challenge.<domain>`; for `http01` it is registered verbatim. Returns
the provisioning call made together with the matched challenge; `none` when
the status is not 200 or no challenge matches. The POST-as-GET request that
fetched the body is abstracted into the `resp` argument. -/
def authorize_certificate (key : ECKey) (resp : AuthzResp) (auth_scheme : String) :
    Option (ProvisionAction × Challenge) :=
  if resp.code = 200 then authorize_loop key resp.identifierValue auth_scheme resp.challenges
  else none

/-! ## Status polling and finalization -/

/-- The pre-finalize success states (`__init__`, line 48). -/
def starting_success_states : List String := ["ready", "processing", "valid"]

/-- The pre-finalize failure states (`__init__`, line 48). -/
def starting_failure_states : List String := ["invalid"]

/-- The post-finalize success states (`__init__`, line 49). -/
def final_success_states : List String := ["valid"]

/-- The post-finalize failure states (`__init__`, line 49). -/
def final_failure_states : List String := ["ready", "invalid", "pending"]

/-- The part of a polled resource body the client reads: its `status` field
and (for a finalized order) its `certificate` field. -/
structure Resource where
  status : String
  certificate : String
deriving DecidableEq

/-- One HTTP response inside the poll loop. -/
structure PollResp where
  code : Nat
  body : Resource
deriving DecidableEq

/-- One iteration of the `poll_resource_status` loop body (lines 281-299) on
one response: `some (some body)` means `return jose_request_object`
(success), `some none` means `return False` (failure state), `none` means
the iteration falls through to `time.sleep(1)` and the loop retries —
which happens both for a non-terminal status and for any HTTP status other
than 200. -/
def poll_step (success_states failure_states : List String) (r : PollResp) :
    Option (Option Resource) :=
  if r.code = 200 then
    if success_states.contains r.body.status then some (some r.body)
    else if failure_states.contains r.body.status then some none
    else none
  else none

/-- Embedding of `poll_resource_status` (lines 280-299) run against a finite
sequence of server responses, one per iteration: the result is the first
iteration's outcome that returns, and `none` when the loop is still running
after consuming the whole sequence (the unbounded Python loop never
terminates on any such sequence). -/
def poll_resource_status (success_states failure_states : List String) :
    List PollResp → Option (Option Resource)
  | [] => none
  | r :: rs =>
      match poll_step success_states failure_states r with
      | some o => some o
      | none => poll_resource_status success_states failure_states rs

/-- What `finalize_certificate` returns, as Python values: `None` (falls off
the end), `False`, a certificate URL string, or no return at all because an
inner poll loop never terminated. -/
inductive PyReturn where
  | noneRet : PyReturn
  | falseRet : PyReturn
  | certRet (url : String) : PyReturn
  | neverReturns : PyReturn
deriving DecidableEq

/-- Observables of one `finalize_certificate` run: the JSON payload POSTed
to the finalize URL (`none` when that POST never happened) and the return
value. -/
structure FinalizeOut where
  csrPosted : Option Json
  result : PyReturn

/-- Embedding of `finalize_certificate` (lines 302-322): poll the order URL
with the starting state sets; on failure return `False` without sending the
CSR; otherwise POST `{"csr": encode_b64(der)}` to the finalize URL; if that
returns HTTP 200, poll again with the final state sets and return the
body's `certificate` field (or `False` on poll failure); a non-200
finalize response falls through to `None`. The three server interactions
are the arguments `p1` (first poll's responses), `finalizeCode` (finalize
POST status) and `p2` (second poll's responses). -/
def finalize_certificate (der : List Nat) (p1 : List PollResp)
    (finalizeCode : Nat) (p2 : List PollResp) : FinalizeOut :=
  match poll_resource_status starting_success_states starting_failure_states p1 with
  | none => ⟨none, .neverReturns⟩
  | some none => ⟨none, .falseRet⟩
  | some (some _) =>
      let payload := Json.obj [("csr", .str (encode_b64 der))]
      if finalizeCode = 200 then
        match poll_resource_status final_success_states final_failure_states p2 with
        | none => ⟨some payload, .neverReturns⟩
        | some none => ⟨some payload, .falseRet⟩
        | some (some r) => ⟨some payload, .certRet r.certificate⟩
      else ⟨some payload, .noneRet⟩

/-- The test the poll loop applies to a body's status: membership in the
success set or the failure set. -/
def terminalStatus (success_states failure_states : List String) (r : PollResp) : Bool :=
  success_states.contains r.body.status || failure_states.contains r.body.status

/-- Whether a poll outcome is a success return (`some (some body)`). -/
def pollSucceeded : Option (Option Resource) → Bool
  | some (some _) => true
  | _ => false

/-- A top-level member's string value, when the member exists and is a
string. -/
def getStrMember (j : Json) (k : String) : Option String :=
  match getMember j k with
  | some (.str s) => some s
  | _ => none

/-! ## Lemmas: base64url and UTF-8 -/

theorem sextets_lt_64 (l : List Nat) (h : ∀ x ∈ l, x < 256) :
    ∀ y ∈ sextets l, y < 64 := by
  induction l using sextets.induct with
  | case1 a b c rest ih =>
    have ha := h a (by simp)
    have hb := h b (by simp)
    have hc := h c (by simp)
    intro y hy
    simp only [sextets, List.mem_cons] at hy
    rcases hy with rfl | rfl | rfl | rfl | hy
    · omega
    · omega
    · omega
    · omega
    · exact ih (fun x hx => h x (by simp [hx])) y hy
  | case2 a b =>
    have ha := h a (by simp)
    have hb := h b (by simp)
    intro y hy
    simp only [sextets, List.mem_cons] at hy
    rcases hy with rfl | rfl | rfl | hy
    · omega
    · omega
    · omega
    · simp at hy
  | case3 a =>
    have ha := h a (by simp)
    intro y hy
    simp only [sextets, List.mem_cons] at hy
    rcases hy with rfl | rfl | hy
    · omega
    · omega
    · simp at hy
  | case4 => intro y hy; simp [sextets] at hy

theorem unsextets_sextets (l : List Nat) (h : ∀ x ∈ l, x < 256) :
    unsextets (sextets l) = l := by
  induction l using sextets.induct with
  | case1 a b c rest ih =>
    have ha := h a (by simp)
    have hb := h b (by simp)
    have hc := h c (by simp)
    simp only [sextets, unsextets]
    rw [ih (fun x hx => h x (by simp [hx]))]
    have e1 : a / 4 * 4 + (a % 4 * 16 + b / 16) / 16 = a := by omega
    have e2 : (a % 4 * 16 + b / 16) % 16 * 16 + (b % 16 * 4 + c / 64) / 4 = b := by omega
    have e3 : (b % 16 * 4 + c / 64) % 4 * 64 + c % 64 = c := by omega
    rw [e1, e2, e3]
  | case2 a b =>
    have ha := h a (by simp)
    have hb := h b (by simp)
    simp only [sextets, unsextets]
    have e1 : a / 4 * 4 + (a % 4 * 16 + b / 16) / 16 = a := by omega
    have e2 : (a % 4 * 16 + b / 16) % 16 * 16 + b % 16 * 4 / 4 = b := by omega
    rw [e1, e2]
  | case3 a =>
    have ha := h a (by simp)
    simp only [sextets, unsextets]
    have e1 : a / 4 * 4 + a % 4 * 16 / 16 = a := by omega
    rw [e1]
  | case4 => simp [sextets, unsextets]

theorem b64Val_b64Char : ∀ n < 64, b64Val (b64Char n) = n := by decide

theorem b64Char_ne_eq : ∀ n < 64, b64Char n ≠ '=' := by decide

/-- Helper: a map that fixes every element of a list is the identity there. -/
theorem map_id_of {α : Type} (l : List α) (f : α → α) (h : ∀ x ∈ l, f x = x) :
    l.map f = l := by
  induction l with
  | nil => rfl
  | cons a t ih =>
    simp only [List.map_cons, h a (by simp)]
    rw [ih (fun x hx => h x (by simp [hx]))]

/-- Helper: filtering keeps a list whose elements all satisfy the test. -/
theorem filter_eq_self_of {α : Type} (l : List α) (p : α → Bool)
    (h : ∀ x ∈ l, p x = true) : l.filter p = l := by
  induction l with
  | nil => rfl
  | cons a t ih =>
    simp [List.filter_cons, h a (by simp), ih (fun x hx => h x (by simp [hx]))]

/-- Helper: filtering drops a list whose elements all fail the test. -/
theorem filter_eq_nil_of {α : Type} (l : List α) (p : α → Bool)
    (h : ∀ x ∈ l, p x = false) : l.filter p = [] := by
  induction l with
  | nil => rfl
  | cons a t ih =>
    simp [List.filter_cons, h a (by simp), ih (fun x hx => h x (by simp [hx]))]

/-- Helper: the characters of an appended string. -/
theorem str_data_append (s t : String) : (s ++ t).data = s.data ++ t.data := rfl

/-- Bytes below 256 round-trip through unpadded encoding and padded decoding. -/
theorem b64_roundtrip (b : List Nat) (h : ∀ x ∈ b, x < 256) :
    b64urlDecode (restorePad (encode_b64 b)) = b := by
  have hs := sextets_lt_64 b h
  have hfilter :
      ((restorePad (encode_b64 b)).data.filter (fun c => c ≠ '=')) =
        (sextets b).map b64Char := by
    have hdata : (restorePad (encode_b64 b)).data =
        ((sextets b).map b64Char) ++
          List.replicate ((4 - (encode_b64 b).length % 4) % 4) '=' := by
      rw [restorePad, str_data_append]
      rfl
    rw [hdata, List.filter_append]
    have h1 : ((sextets b).map b64Char).filter (fun c => decide (c ≠ '=')) =
        (sextets b).map b64Char := by
      apply filter_eq_self_of
      intro c hc
      rcases List.mem_map.mp hc with ⟨n, hn, rfl⟩
      simpa using b64Char_ne_eq n (hs n hn)
    have h2 : (List.replicate ((4 - (encode_b64 b).length % 4) % 4) '=').filter
        (fun c => decide (c ≠ '=')) = [] := by
      apply filter_eq_nil_of
      intro c hc
      simp [List.eq_of_mem_replicate hc]
    rw [h1, h2, List.append_nil]
  unfold b64urlDecode
  rw [hfilter, List.map_map]
  have hmap : (sextets b).map (b64Val ∘ b64Char) = sextets b := by
    apply map_id_of
    intro n hn
    exact b64Val_b64Char n (hs n hn)
  rw [hmap, unsextets_sextets b h]

/-- Every UTF-8 byte is below 256. -/
theorem utf8EncodeChar_lt_256 (c : Char) : ∀ x ∈ utf8EncodeChar c, x < 256 := by
  have hv : c.toNat < 1114112 := by
    have := c.valid
    rcases this with h | ⟨h1, h2⟩
    · calc c.val.toNat < 55296 := h
        _ < 1114112 := by norm_num
    · exact h2
  intro x hx
  unfold utf8EncodeChar at hx
  split at hx
  · simp at hx; omega
  · split at hx
    · simp at hx; omega
    · split at hx
      · simp at hx
        rcases hx with rfl | rfl | rfl <;> omega
      · simp at hx
        rcases hx with rfl | rfl | rfl | rfl <;> omega

theorem utf8Bytes_lt_256 (s : String) : ∀ x ∈ utf8Bytes s, x < 256 := by
  intro x hx
  rcases List.mem_flatMap.mp hx with ⟨c, _, hc⟩
  exact utf8EncodeChar_lt_256 c x hc

theorem utf8Bytes_append (s t : String) :
    utf8Bytes (s ++ t) = utf8Bytes s ++ utf8Bytes t := by
  simp [utf8Bytes, str_data_append]

theorem natBytesGo_lt_256 (fuel : Nat) :
    ∀ n, ∀ x ∈ natBytesGo fuel n, x < 256 := by
  induction fuel with
  | zero => intro n x hx; simp [natBytesGo] at hx
  | succ f ih =>
    intro n x hx
    rw [natBytesGo] at hx
    split at hx
    · simp at hx
    · rcases List.mem_append.mp hx with h | h
      · exact ih (n / 256) x h
      · simp at h
        omega

theorem natToBytesBE_lt_256 (n : Nat) : ∀ x ∈ natToBytesBE n, x < 256 := by
  unfold natToBytesBE
  split
  · simp
  · exact natBytesGo_lt_256 n n

/-! ## Claims about the status poller (C7, C9) -/

/-- C7: for every sequence of polled responses (each carrying a readable
status, i.e. HTTP 200, the case the claim's status sequences describe), the
loop returns at the first response whose status is in `successStates` or in
`failureStates` — the resource on a success status, failure (`False`) on a
failure status, the success set being consulted first — and when no
response's status is ever in either set it runs past the whole sequence,
i.e. the unbounded loop never terminates. -/
theorem C7_poller_termination (success_states failure_states : List String)
    (rs : List PollResp) (hall : ∀ r ∈ rs, r.code = 200) :
    poll_resource_status success_states failure_states rs =
      (rs.find? (terminalStatus success_states failure_states)).map
        (fun r => if success_states.contains r.body.status then some r.body else none) := by
  induction rs with
  | nil => rfl
  | cons r rest ih =>
    have h200 : r.code = 200 := hall r (List.mem_cons_self r rest)
    have ihh := ih (fun x hx => hall x (List.mem_cons_of_mem r hx))
    by_cases hsucc : r.body.status ∈ success_states
    · simp [poll_resource_status, poll_step, h200, terminalStatus, List.find?_cons, hsucc]
    · by_cases hfail : r.body.status ∈ failure_states
      · simp [poll_resource_status, poll_step, h200, terminalStatus, List.find?_cons,
          hsucc, hfail]
      · simp [poll_resource_status, poll_step, h200, terminalStatus, List.find?_cons,
          hsucc, hfail, ihh]

/-- C7 witness: the spec's scenario — statuses `pending, pending, valid`
with success set `{valid}` terminate at the third response returning its
body; the prior theorem instantiated there. -/
theorem C7_poller_termination_witness :
    poll_resource_status ["valid"] ["invalid"]
        [⟨200, ⟨"pending", ""⟩⟩, ⟨200, ⟨"pending", ""⟩⟩, ⟨200, ⟨"valid", "certUrl"⟩⟩] =
      (([⟨200, ⟨"pending", ""⟩⟩, ⟨200, ⟨"pending", ""⟩⟩,
          (⟨200, ⟨"valid", "certUrl"⟩⟩ : PollResp)].find?
        (terminalStatus ["valid"] ["invalid"])).map
        (fun r => if List.contains ["valid"] r.body.status then some r.body else none)) :=
  C7_poller_termination ["valid"] ["invalid"] _ (by decide)

/-- C9: a response with an HTTP status other than 200 never terminates the
poll loop: the loop body produces no return for it (neither success nor
failure) and polling a sequence headed by it behaves exactly like polling
the remainder — the loop sleeps and retries. -/
theorem C9_non200_keeps_polling (success_states failure_states : List String)
    (r : PollResp) (rs : List PollResp) (h : r.code ≠ 200) :
    poll_step success_states failure_states r = none ∧
    poll_resource_status success_states failure_states (r :: rs) =
      poll_resource_status success_states failure_states rs := by
  have hstep : poll_step success_states failure_states r = none := by
    unfold poll_step
    rw [if_neg h]
  refine ⟨hstep, ?_⟩
  simp [poll_resource_status, hstep]

/-- C9 witness: a 500 response whose body even claims status `valid` is
skipped, and alone it never terminates the loop. -/
theorem C9_non200_keeps_polling_witness :
    poll_step ["valid"] ["invalid"] ⟨500, ⟨"valid", ""⟩⟩ = none ∧
    poll_resource_status ["valid"] ["invalid"] [⟨500, ⟨"valid", ""⟩⟩] =
      poll_resource_status ["valid"] ["invalid"] [] :=
  C9_non200_keeps_polling ["valid"] ["invalid"] ⟨500, ⟨"valid", ""⟩⟩ [] (by decide)

/-! ## Claim about get_nonce (C8) -/

/-- C8: `get_nonce` produces a value exactly when the directory has been
resolved (the newNonce URL is set) and the HTTP status is 200 or 204, and
then the value is the `Replay-Nonce` response header. -/
theorem C8_get_nonce_iff (u : Option String) (resp : NonceResp) (v : String) :
    get_nonce u resp = some v ↔
      (u ≠ none ∧ (resp.code = 200 ∨ resp.code = 204) ∧ v = resp.replayNonce) := by
  cases u with
  | none => simp [get_nonce]
  | some s =>
    by_cases h : resp.code = 200 ∨ resp.code = 204
    · simp [get_nonce, h, eq_comm]
    · simp [get_nonce, h]

/-- C8 witness: a 204 response with header value `nonce1` and the directory
resolved yields exactly that nonce. -/
theorem C8_get_nonce_iff_witness :
    get_nonce (some "https://ca/nonce") ⟨204, "nonce1"⟩ = some "nonce1" :=
  (C8_get_nonce_iff (some "https://ca/nonce") ⟨204, "nonce1"⟩ "nonce1").mpr
    (by refine ⟨by simp, by simp, rfl⟩)

/-! ## Claim about empty-payload framing (C2) -/

/-- C2: in kid mode with the empty-string payload, the string whose ASCII
bytes are SHA-256 hashed and signed is the encoded protected header plus a
single trailing dot — the payload contributes zero bytes — and the
envelope's payload field is the empty string, which differs from the
base64url encoding of the serialized empty JSON object. -/
theorem C2_empty_payload_framing (sign : List Nat → List Nat)
    (kid nonce : Option String) (url : String) :
    (create_jose_kid sign kid nonce url (.str "")).signingInput =
      (create_jose_kid sign kid nonce url (.str "")).protected_ ++ "." ∧
    utf8Bytes (create_jose_kid sign kid nonce url (.str "")).signingInput =
      utf8Bytes (create_jose_kid sign kid nonce url (.str "")).protected_ ++ [46] ∧
    (create_jose_kid sign kid nonce url (.str "")).payload = "" ∧
    (create_jose_kid sign kid nonce url (.str "")).payload ≠
      encode_b64_str (dumps (Json.obj [])) ∧
    (create_jose_kid sign kid nonce url (.str "")).signature =
      encode_b64 (sign (sha256 (utf8Bytes
        ((create_jose_kid sign kid nonce url (.str "")).protected_ ++ ".")))) := by
  refine ⟨rfl, ?_, rfl, ?_, rfl⟩
  · rw [show (create_jose_kid sign kid nonce url (.str "")).signingInput =
        (create_jose_kid sign kid nonce url (.str "")).protected_ ++ "." from rfl]
    rw [utf8Bytes_append]
    rw [show utf8Bytes "." = [46] from rfl]
  · rw [show (create_jose_kid sign kid nonce url (.str "")).payload = "" from rfl]
    decide

/-! ## Claim about finalize_certificate (C6) -/

/-- C6: `finalize_certificate` first polls the order URL with success set
`{ready, processing, valid}` and failure set `{invalid}`; the CSR payload
`{"csr": base64url(DER)}` is POSTed exactly when that poll succeeds (so on
first-poll failure the CSR is never sent); the run returns a certificate
URL exactly when the first poll succeeds, the finalize POST returns 200,
and the second poll — with success set `{valid}` and failure set
`{ready, invalid, pending}` — succeeds, in which case the URL is the
polled order's `certificate` field; in every other case no usable result
is produced. -/
theorem C6_finalize_certificate (der : List Nat) (p1 : List PollResp)
    (finalizeCode : Nat) (p2 : List PollResp) :
    (starting_success_states = ["ready", "processing", "valid"] ∧
      starting_failure_states = ["invalid"] ∧
      final_success_states = ["valid"] ∧
      final_failure_states = ["ready", "invalid", "pending"]) ∧
    (finalize_certificate der p1 finalizeCode p2).csrPosted =
      (if pollSucceeded
          (poll_resource_status starting_success_states starting_failure_states p1)
        then some (Json.obj [("csr", .str (encode_b64 der))]) else none) ∧
    (∀ c, (finalize_certificate der p1 finalizeCode p2).result = .certRet c ↔
      pollSucceeded
          (poll_resource_status starting_success_states starting_failure_states p1) =
        true ∧
      finalizeCode = 200 ∧
      ∃ r, poll_resource_status final_success_states final_failure_states p2 =
          some (some r) ∧ c = r.certificate) := by
  refine ⟨⟨rfl, rfl, rfl, rfl⟩, ?_⟩
  unfold finalize_certificate
  cases h1 : poll_resource_status starting_success_states starting_failure_states p1 with
  | none => simp [pollSucceeded]
  | some o1 =>
    cases o1 with
    | none => simp [pollSucceeded]
    | some r1 =>
      by_cases hf : finalizeCode = 200
      · cases h2 : poll_resource_status final_success_states final_failure_states p2 with
        | none => simp [pollSucceeded, hf]
        | some o2 =>
          cases o2 with
          | none => simp [pollSucceeded, hf]
          | some r2 => simp [pollSucceeded, hf, eq_comm]
      · simp [pollSucceeded, hf]

/-- C6 witness: a `ready` order, a 200 finalize response and a `valid`
second poll produce the CSR POST and the certificate URL; the theorem
instantiated there. -/
theorem C6_finalize_certificate_witness :
    (starting_success_states = ["ready", "processing", "valid"] ∧
      starting_failure_states = ["invalid"] ∧
      final_success_states = ["valid"] ∧
      final_failure_states = ["ready", "invalid", "pending"]) ∧
    (finalize_certificate [1, 2] [⟨200, ⟨"ready", ""⟩⟩] 200
        [⟨200, ⟨"valid", "https://ca/cert/1"⟩⟩]).csrPosted =
      (if pollSucceeded
          (poll_resource_status starting_success_states starting_failure_states
            [⟨200, ⟨"ready", ""⟩⟩])
        then some (Json.obj [("csr", .str (encode_b64 [1, 2]))]) else none) ∧
    (∀ c, (finalize_certificate [1, 2] [⟨200, ⟨"ready", ""⟩⟩] 200
        [⟨200, ⟨"valid", "https://ca/cert/1"⟩⟩]).result = .certRet c ↔
      pollSucceeded
          (poll_resource_status starting_success_states starting_failure_states
            [⟨200, ⟨"ready", ""⟩⟩]) = true ∧
      (200 : Nat) = 200 ∧
      ∃ r, poll_resource_status final_success_states final_failure_states
          [⟨200, ⟨"valid", "https://ca/cert/1"⟩⟩] = some (some r) ∧
            c = r.certificate) :=
  C6_finalize_certificate [1, 2] [⟨200, ⟨"ready", ""⟩⟩] 200
    [⟨200, ⟨"valid", "https://ca/cert/1"⟩⟩]

/-! ## Claim about encode_b64 (C10) -/

/-- C10: `encode_b64` never emits `=` padding, and base64url-decoding its
output after restoring padding gives back the input bytes; a string input
is first UTF-8 encoded and the same round trip holds for its bytes. -/
theorem C10_encode_b64_roundtrip :
    (∀ b : List Nat, (∀ x ∈ b, x < 256) →
      ('=' ∉ (encode_b64 b).data ∧
        b64urlDecode (restorePad (encode_b64 b)) = b)) ∧
    (∀ s : String, encode_b64_str s = encode_b64 (utf8Bytes s) ∧
      b64urlDecode (restorePad (encode_b64_str s)) = utf8Bytes s) := by
  constructor
  · intro b hb
    refine ⟨?_, b64_roundtrip b hb⟩
    intro hc
    rcases List.mem_map.mp hc with ⟨n, hn, heq⟩
    exact b64Char_ne_eq n (sextets_lt_64 b hb n hn) heq
  · intro s
    exact ⟨rfl, b64_roundtrip _ (utf8Bytes_lt_256 s)⟩

/-- C10 witness: the round trip evaluated on the bytes `[0, 255, 7]` and on
the string `"hi="`. -/
theorem C10_encode_b64_roundtrip_witness :
    (∀ x ∈ [0, 255, 7], x < 256) ∧
    ('=' ∉ (encode_b64 [0, 255, 7]).data ∧
      b64urlDecode (restorePad (encode_b64 [0, 255, 7])) = [0, 255, 7]) ∧
    (encode_b64_str "hi=" = encode_b64 (utf8Bytes "hi=") ∧
      b64urlDecode (restorePad (encode_b64_str "hi=")) = utf8Bytes "hi=") :=
  ⟨by decide, C10_encode_b64_roundtrip.1 [0, 255, 7] (by decide),
    C10_encode_b64_roundtrip.2 "hi="⟩

/-! ## Claim about jwk/kid exclusivity (C3) -/

/-- Helper: the protected field of a kid-mode envelope is the encoded kid
header for every payload (both match arms agree on it). -/
theorem create_jose_kid_protected (sign : List Nat → List Nat)
    (kid nonce : Option String) (url : String) (payload : Json) :
    (create_jose_kid sign kid nonce url payload).protected_ =
      encode_b64_str (dumps (kid_protected_header kid nonce url)) := by
  unfold create_jose_kid
  split <;> rfl

/-- C3: the base64url-decoded protected header of a jwk-mode envelope is the
serialization of a JSON object whose top-level keys include `jwk` and not
`kid`; for a kid-mode envelope it is the serialization of an object with
`kid` and not `jwk`; so every produced envelope's protected header carries
exactly one of the two. -/
theorem C3_jwk_kid_exclusive (sign : List Nat → List Nat) (key : ECKey)
    (kid nonce : Option String) (url : String) (payload : Json) :
    (b64urlDecode (restorePad (create_jose_jwk sign key nonce url payload).protected_) =
        utf8Bytes (dumps (jwk_protected_header key nonce url)) ∧
      hasKey (jwk_protected_header key nonce url) "jwk" = true ∧
      hasKey (jwk_protected_header key nonce url) "kid" = false) ∧
    (b64urlDecode (restorePad (create_jose_kid sign kid nonce url payload).protected_) =
        utf8Bytes (dumps (kid_protected_header kid nonce url)) ∧
      hasKey (kid_protected_header kid nonce url) "kid" = true ∧
      hasKey (kid_protected_header kid nonce url) "jwk" = false) := by
  constructor
  · exact ⟨b64_roundtrip _ (utf8Bytes_lt_256 _), rfl, rfl⟩
  · rw [create_jose_kid_protected]
    exact ⟨b64_roundtrip _ (utf8Bytes_lt_256 _), rfl, rfl⟩

/-! ## Claim about envelope serialization (C4): corrected -/

/-- C4 counterexample: the builders serialize with plain `json.dumps`, whose
default separators are `", "` and `": "`, so the JSON placed base64url-
encoded into the protected field does contain whitespace. Here a concrete
jwk-mode envelope's protected field encodes a header string containing a
space character, refuting the claim's "contains no whitespace". -/
theorem C4_counterexample :
    (create_jose_jwk (fun b => b) ⟨1, 2⟩ (some "n") "u"
        (Json.obj [("a", Json.num 1)])).protected_ =
      encode_b64_str (dumps (jwk_protected_header ⟨1, 2⟩ (some "n") "u")) ∧
    ' ' ∈ (dumps (jwk_protected_header ⟨1, 2⟩ (some "n") "u")).data ∧
    ' ' ∈ (dumps (Json.obj [("a", Json.num 1)])).data :=
  ⟨rfl, by decide, by decide⟩

/-- Helper: for a payload other than the empty string, the kid-mode builder
takes its general branch. -/
theorem create_jose_kid_nonempty (sign : List Nat → List Nat)
    (kid nonce : Option String) (url : String) (payload : Json)
    (hp : payload ≠ .str "") :
    create_jose_kid sign kid nonce url payload =
      ⟨encode_b64_str (dumps (kid_protected_header kid nonce url)),
       encode_b64_str (dumps payload),
       encode_b64_str (dumps (kid_protected_header kid nonce url)) ++ "." ++
         encode_b64_str (dumps payload),
       encode_b64 (sign (sha256 (utf8Bytes
         (encode_b64_str (dumps (kid_protected_header kid nonce url)) ++ "." ++
           encode_b64_str (dumps payload)))))⟩ := by
  unfold create_jose_kid
  split
  · exact absurd rfl hp
  · rfl

/-- C4 amended: in both builders the protected and payload fields hold the
base64url encoding of Python's default `json.dumps` serialization — which
uses the separators `", "` and `": "`, so it is not whitespace-free — and
the signed digest is SHA-256 over the ASCII string `"{header}.{payload}"`
of the two encoded fields (the two encoded fields joined by a dot). -/
theorem C4_amended_serialization (sign : List Nat → List Nat) (key : ECKey)
    (kid nonce : Option String) (url : String) (payload : Json)
    (hp : payload ≠ .str "") :
    ((create_jose_jwk sign key nonce url payload).protected_ =
        encode_b64_str (dumps (jwk_protected_header key nonce url)) ∧
      (create_jose_jwk sign key nonce url payload).payload =
        encode_b64_str (dumps payload) ∧
      (create_jose_jwk sign key nonce url payload).signingInput =
        (create_jose_jwk sign key nonce url payload).protected_ ++ "." ++
          (create_jose_jwk sign key nonce url payload).payload ∧
      (create_jose_jwk sign key nonce url payload).signature =
        encode_b64 (sign (sha256 (utf8Bytes
          ((create_jose_jwk sign key nonce url payload).signingInput))))) ∧
    ((create_jose_kid sign kid nonce url payload).protected_ =
        encode_b64_str (dumps (kid_protected_header kid nonce url)) ∧
      (create_jose_kid sign kid nonce url payload).payload =
        encode_b64_str (dumps payload) ∧
      (create_jose_kid sign kid nonce url payload).signingInput =
        (create_jose_kid sign kid nonce url payload).protected_ ++ "." ++
          (create_jose_kid sign kid nonce url payload).payload ∧
      (create_jose_kid sign kid nonce url payload).signature =
        encode_b64 (sign (sha256 (utf8Bytes
          ((create_jose_kid sign kid nonce url payload).signingInput))))) := by
  refine ⟨⟨rfl, rfl, rfl, rfl⟩, ?_⟩
  rw [create_jose_kid_nonempty sign kid nonce url payload hp]
  exact ⟨rfl, rfl, rfl, rfl⟩

/-- C4 witness: the amended statement instantiated at a concrete order-like
payload, whose hypothesis (the payload is not the empty string) holds. -/
theorem C4_amended_serialization_witness :
    (Json.obj [("a", Json.num 1)] ≠ .str "") ∧
    ((create_jose_kid (fun b => b) (some "https://ca/acct/7") (some "n") "u"
        (Json.obj [("a", Json.num 1)])).payload =
      encode_b64_str (dumps (Json.obj [("a", Json.num 1)]))) :=
  ⟨fun h => Json.noConfusion h,
   (C4_amended_serialization (fun b => b) ⟨1, 2⟩ (some "https://ca/acct/7")
      (some "n") "u" (Json.obj [("a", Json.num 1)])
      (fun h => Json.noConfusion h)).2.2.1⟩

/-! ## Claim about the JWK object (C5): corrected -/

/-- C5 counterexample: `create_jwk_object` is not the four-member canonical
JWK: it also carries `"kid": "1"` (a member outside `{kty, crv, x, y}`),
and its `x` member for the coordinate 1 is the base64url encoding of the
one-byte minimal big-endian form, not of a fixed-width 32-byte big-endian
integer. -/
theorem C5_counterexample :
    hasKey (create_jwk_object ⟨1, 2⟩) "kid" = true ∧
    ("kid" ∈ ["kty", "crv", "x", "y"]) = False ∧
    getStrMember (create_jwk_object ⟨1, 2⟩) "x" ≠
      some (encode_b64 (List.replicate 31 0 ++ [1])) := by
  refine ⟨rfl, by simp, by decide⟩

/-- C5 amended: the produced object is the five-member object
`{crv: "P-256", kid: "1", kty: "EC", x, y}` (in that dict order), where `x`
and `y` are the base64url encodings of the coordinates as minimal-length
big-endian integers: decoding them (after restoring padding) gives exactly
`natToBytesBE` of the coordinate, and there are no members beyond those
five. -/
theorem C5_amended_jwk_object (key : ECKey) :
    create_jwk_object key =
      Json.obj [("crv", .str "P-256"), ("kid", .str "1"), ("kty", .str "EC"),
        ("x", .str (encode_b64 (natToBytesBE key.x))),
        ("y", .str (encode_b64 (natToBytesBE key.y)))] ∧
    topKeys (create_jwk_object key) = ["crv", "kid", "kty", "x", "y"] ∧
    (∀ sx, getStrMember (create_jwk_object key) "x" = some sx →
      b64urlDecode (restorePad sx) = natToBytesBE key.x) ∧
    (∀ sy, getStrMember (create_jwk_object key) "y" = some sy →
      b64urlDecode (restorePad sy) = natToBytesBE key.y) := by
  refine ⟨rfl, rfl, ?_, ?_⟩
  · intro sx hsx
    rw [show getStrMember (create_jwk_object key) "x" =
        some (encode_b64 (natToBytesBE key.x)) from rfl] at hsx
    injection hsx with h
    rw [← h]
    exact b64_roundtrip _ (natToBytesBE_lt_256 key.x)
  · intro sy hsy
    rw [show getStrMember (create_jwk_object key) "y" =
        some (encode_b64 (natToBytesBE key.y)) from rfl] at hsy
    injection hsy with h
    rw [← h]
    exact b64_roundtrip _ (natToBytesBE_lt_256 key.y)

/-- C5 witness: for the key with coordinates 1 and 2 the `x` member decodes
back to the single byte `[1]`. -/
theorem C5_amended_jwk_object_witness :
    getStrMember (create_jwk_object ⟨1, 2⟩) "x" = some "AQ" ∧
    b64urlDecode (restorePad "AQ") = natToBytesBE 1 :=
  ⟨rfl, (C5_amended_jwk_object ⟨1, 2⟩).2.2.1 "AQ" rfl⟩

/-! ## Claim about the key authorization and the dns-01 TXT value (C1) -/

theorem encode_b64_chars (bs : List Nat) (hbs : ∀ x ∈ bs, x < 256) :
    ∀ c ∈ (encode_b64 bs).data, ∃ n, n < 64 ∧ c = b64Char n := by
  intro c hc
  rcases List.mem_map.mp hc with ⟨n, hn, rfl⟩
  exact ⟨n, sextets_lt_64 bs hbs n hn, rfl⟩

theorem b64Char_not_ws : ∀ n < 64, (b64Char n).isWhitespace = false := by decide

theorem b64Char_escape : ∀ n < 64, jsonEscapeChar (b64Char n) = [b64Char n] := by
  decide

theorem mem_jsonQuote (s : String) (c : Char) (hc : c ∈ (jsonQuote s).data) :
    c = '"' ∨ ∃ d ∈ s.data, c ∈ jsonEscapeChar d := by
  rw [jsonQuote, str_data_append, str_data_append] at hc
  rcases List.mem_append.mp hc with h | h
  · rcases List.mem_append.mp h with h2 | h2
    · left
      exact List.mem_singleton.mp h2
    · right
      exact List.mem_flatMap.mp h2
  · left
    exact List.mem_singleton.mp h

theorem jsonQuote_b64_no_ws (bs : List Nat) (hbs : ∀ x ∈ bs, x < 256) :
    ∀ c ∈ (jsonQuote (encode_b64 bs)).data, c.isWhitespace = false := by
  intro c hc
  rcases mem_jsonQuote _ c hc with rfl | ⟨d, hd, hcd⟩
  · decide
  · rcases encode_b64_chars bs hbs d hd with ⟨n, hn, rfl⟩
    rw [b64Char_escape n hn] at hcd
    obtain rfl := List.mem_singleton.mp hcd
    exact b64Char_not_ws n hn

theorem ws_append (s t : String) (hs : ∀ c ∈ s.data, c.isWhitespace = false)
    (ht : ∀ c ∈ t.data, c.isWhitespace = false) :
    ∀ c ∈ (s ++ t).data, c.isWhitespace = false := by
  intro c hc
  rw [str_data_append] at hc
  rcases List.mem_append.mp hc with h | h
  · exact hs c h
  · exact ht c h

/-- Helper: the compact serialization of the key-authorization JWK contains
no whitespace character at all (in particular its separators are
whitespace-free). -/
theorem keyauth_json_no_ws (key : ECKey) :
    ∀ c ∈ (dumpsCompact (keyauth_jwk key)).data, c.isWhitespace = false := by
  simp only [dumpsCompact, keyauth_jwk, dumpsVal, dumpsMembers]
  repeat'
    first
    | exact jsonQuote_b64_no_ws _ (natToBytesBE_lt_256 _)
    | decide
    | apply ws_append

/-- Helper: a successful dns01 run of the challenge loop returns a dns-01
challenge and publishes the further-hashed key authorization for it. -/
theorem authorize_loop_dns01 (key : ECKey) (idv : String) (chs : List Challenge)
    (act : ProvisionAction) (ch : Challenge)
    (h : authorize_loop key idv "dns01" chs = some (act, ch)) :
    ch.type = "dns-01" ∧
    act = .dnsTXT ("_acme-challenge." ++ idv)
      (encode_b64 (sha256 (utf8Bytes (create_key_authorization key ch.token)))) := by
  induction chs with
  | nil => simp [authorize_loop] at h
  | cons c rest ih =>
    rw [authorize_loop] at h
    by_cases hd : c.type = "dns-01"
    · simp only [hd] at h
      simp at h
      rcases h with ⟨hact, hch⟩
      subst hch
      exact ⟨hd, by rw [hact]⟩
    · have hg1 : ¬("dns01" = "dns01" ∧ c.type = "dns-01") := fun hx => hd hx.2
      have hg2 : ¬("dns01" = "http01" ∧ c.type = "http-01") := fun hx => by
        exact absurd hx.1 (by decide)
      rw [if_neg hg1, if_neg hg2] at h
      exact ih h

/-- C1: whenever `authorize_certificate` provisions a dns-01 challenge, the
key authorization is `token + "." + base64url(SHA-256(JWK-JSON))` where the
JWK JSON is the compact (whitespace-free separators) serialization of the
account public key's JWK, and the value published as the DNS TXT record at
`_acme-challenge.<domain>` is `base64url(SHA-256(keyAuthorization))`, the
further hash of that string. -/
theorem C1_key_authorization (key : ECKey) (resp : AuthzResp)
    (act : ProvisionAction) (ch : Challenge)
    (h : authorize_certificate key resp "dns01" = some (act, ch)) :
    create_key_authorization key ch.token =
      ch.token ++ "." ++
        encode_b64 (sha256 (utf8Bytes (dumpsCompact (keyauth_jwk key)))) ∧
    (∀ c ∈ (dumpsCompact (keyauth_jwk key)).data, c.isWhitespace = false) ∧
    ch.type = "dns-01" ∧
    act = .dnsTXT ("_acme-challenge." ++ resp.identifierValue)
      (encode_b64 (sha256 (utf8Bytes (create_key_authorization key ch.token)))) := by
  have hloop : authorize_loop key resp.identifierValue "dns01" resp.challenges =
      some (act, ch) := by
    unfold authorize_certificate at h
    by_cases h200 : resp.code = 200
    · rw [if_pos h200] at h
      exact h
    · rw [if_neg h200] at h
      exact absurd h (by simp)
  obtain ⟨hty, hact⟩ := authorize_loop_dns01 key resp.identifierValue resp.challenges
    act ch hloop
  exact ⟨rfl, keyauth_json_no_ws key, hty, hact⟩

set_option maxRecDepth 100000 in
/-- C1 witness: for the key with coordinates 1, 2 and a response carrying an
http-01 and a dns-01 challenge with token `tok`, the dns-01 branch fires
and the theorem's conclusions are evaluated concretely. -/
theorem C1_key_authorization_witness :
    authorize_certificate ⟨1, 2⟩
        ⟨200, [⟨"http-01", "t1"⟩, ⟨"dns-01", "tok"⟩], "example.com"⟩ "dns01" =
      some (.dnsTXT "_acme-challenge.example.com"
          "nKAcIojHuxVjIAn2A_8uK3PTfeH-yhgIHbimvID4rAE", ⟨"dns-01", "tok"⟩) ∧
    create_key_authorization ⟨1, 2⟩ "tok" =
      "tok" ++ "." ++
        encode_b64 (sha256 (utf8Bytes (dumpsCompact (keyauth_jwk ⟨1, 2⟩)))) ∧
    create_key_authorization ⟨1, 2⟩ "tok" =
      "tok.CmzeuaSxxfG8gIKRU_AgBzPa16nTt0H64JD7q1sZUUY" := by
  have h : authorize_certificate ⟨1, 2⟩
      ⟨200, [⟨"http-01", "t1"⟩, ⟨"dns-01", "tok"⟩], "example.com"⟩ "dns01" =
      some (.dnsTXT "_acme-challenge.example.com"
          "nKAcIojHuxVjIAn2A_8uK3PTfeH-yhgIHbimvID4rAE", ⟨"dns-01", "tok"⟩) := by
    decide
  exact ⟨h, (C1_key_authorization ⟨1, 2⟩
    ⟨200, [⟨"http-01", "t1"⟩, ⟨"dns-01", "tok"⟩], "example.com"⟩ _ _ h).1, by decide⟩

end Acme
